import Mathlib

/-!
Shallow embedding of the revdisp scraping pipeline
(src/calculator_scraper.py, src/python-scraper/calculator_scraper.py,
src/python-scraper/mfq_scraper_simple.py).

Numbers parsed by Python's `float` are modelled as exact rationals (ℚ);
every decimal literal appearing in the claims is exactly representable,
so no rounding behaviour of binary floats is involved in any statement.
-/

namespace Revdisp

/-- Model of Python's `str.isspace` / regex `\s` character class: ASCII
whitespace plus the non-breaking and narrow no-break spaces that occur in
the scraped pages.  (Python's full Unicode whitespace set is larger; only
these members are reachable from the scraped text.) -/
def pyIsSpace (c : Char) : Bool :=
  c = ' ' || c = '\t' || c = '\n' || c = '\r' || c = '\x0b' || c = '\x0c'
    || c = ' ' || c = ' '

/-- Model of Python's `str.isdigit` for the characters reachable here
(ASCII decimal digits; exotic Unicode digit characters do not occur in the
scraped pages). -/
def pyIsDigit (c : Char) : Bool :=
  '0' ≤ c && c ≤ '9'

/-- Numeric value of a list of ASCII digits, most significant first. -/
def digitsVal (l : List Char) : Nat :=
  l.foldl (fun acc c => acc * 10 + (c.toNat - '0'.toNat)) 0

/-- `some` iff the list is a nonempty run of ASCII digits. -/
def digitsToNat (l : List Char) : Option Nat :=
  if l ≠ [] ∧ l.all pyIsDigit then some (digitsVal l) else none

/-- Mantissa part of Python `float` parsing: digits with at most one `.`,
at least one digit overall (`"1"`, `"1.5"`, `"1."`, `".5"`). -/
def parseMantissa (l : List Char) : Option ℚ :=
  match l.span (· ≠ '.') with
  | (intPart, []) =>
      (digitsToNat intPart).map (fun n => mkRat n 1)
  | (intPart, _ :: fracPart) =>
      if fracPart.contains '.' then none
      else if ¬ (intPart.all pyIsDigit ∧ fracPart.all pyIsDigit) then none
      else if intPart = [] ∧ fracPart = [] then none
      else some (mkRat (digitsVal intPart * 10 ^ fracPart.length + digitsVal fracPart)
        (10 ^ fracPart.length))

/-- Exponent part of Python `float` parsing: optional sign then digits. -/
def parseExponent (l : List Char) : Option ℤ :=
  match l with
  | '-' :: rest => (digitsToNat rest).map (fun n => -(n : ℤ))
  | '+' :: rest => (digitsToNat rest).map (fun n => (n : ℤ))
  | rest => (digitsToNat rest).map (fun n => (n : ℤ))

/-- Split a char list at the first `e`/`E`, if any. -/
def splitAtExp (l : List Char) : List Char × Option (List Char) :=
  match l.span (fun c => c ≠ 'e' ∧ c ≠ 'E') with
  | (m, []) => (m, none)
  | (m, _ :: rest) => (m, some rest)

/-- Unsigned part of Python `float` parsing (mantissa with optional
exponent). -/
def parseUnsigned (l : List Char) : Option ℚ :=
  match splitAtExp l with
  | (m, none) => parseMantissa m
  | (m, some e) => do
      let mv ← parseMantissa m
      let ev ← parseExponent e
      if 0 ≤ ev then pure (mv * mkRat (10 ^ ev.toNat) 1)
      else pure (mv * mkRat 1 (10 ^ (-ev).toNat))

/-- Model of Python's builtin `float(s)`: strip surrounding whitespace,
optional sign, decimal mantissa, optional exponent.  `none` models the
`ValueError` raised on any other input.  (The named forms `inf`/`nan` and
digit-group underscores are not produced at any call site and are mapped
to `none`.) -/
def pyFloat (s : String) : Option ℚ :=
  let l := ((s.data.dropWhile pyIsSpace).reverse.dropWhile pyIsSpace).reverse
  match l with
  | '-' :: rest => (parseUnsigned rest).map Neg.neg
  | '+' :: rest => parseUnsigned rest
  | rest => parseUnsigned rest

/-- Model of Python's builtin `int(s)` on a decimal string: strip
surrounding whitespace, optional sign, digits; `none` models
`ValueError`. -/
def pyInt (s : String) : Option ℤ :=
  let l := ((s.data.dropWhile pyIsSpace).reverse.dropWhile pyIsSpace).reverse
  match l with
  | '-' :: rest => (digitsToNat rest).map (fun n => -(n : ℤ))
  | '+' :: rest => (digitsToNat rest).map (fun n => (n : ℤ))
  | rest => (digitsToNat rest).map (fun n => (n : ℤ))

/-- Model of Python's `str.strip()` on the text of a page element. -/
def pyStrip (s : String) : String :=
  String.mk (((s.data.dropWhile pyIsSpace).reverse.dropWhile pyIsSpace).reverse)

/-- Whether `needle` occurs as a contiguous run inside the list. -/
def infixRun (needle : List Char) : List Char → Bool
  | [] => needle.isPrefixOf []
  | c :: rest => needle.isPrefixOf (c :: rest) || infixRun needle rest

/-- Model of Python's substring test `needle in hay`. -/
def pyContains (hay needle : String) : Bool :=
  infixRun needle.data hay.data

/-- Model of Python's `str.lower()` (ASCII case folding; the accented
letters in the row labels are already lower case). -/
def pyLower (s : String) : String :=
  String.mk (s.data.map Char.toLower)

/-! ## Page model

The browser page is modelled as the data the scraper can observe through
Selenium: a finite map from element locator (the exact CSS-selector or id
string the code passes to `find_element`) to the element's state, a map
from select-element id to its list of visible option texts, and the list
of `td`/`th` table cells with their enclosing row's text. -/

/-- Selenium `tag_name` as far as the code inspects it. -/
inductive Tag where
  | input
  | other
deriving DecidableEq

/-- Observable state of one page element. -/
structure Control where
  tag : Tag
  /-- `get_attribute('value')`; `none` models a null attribute. -/
  attrValue : Option String
  /-- the displayed text, `element.text`. -/
  text : String
deriving DecidableEq

/-- One `td`/`th` cell for the opportunistic table scan. -/
structure Cell where
  /-- the cell's displayed text. -/
  text : String
  /-- text of the enclosing row (XPath `..`); `none` models a failing
  parent lookup. -/
  parentText : Option String
deriving DecidableEq

/-- The observable page state. -/
structure Page where
  controls : List (String × Control)
  selects : List (String × List String)
  cells : List Cell
deriving DecidableEq

/-- `find_element`: `none` models `NoSuchElementException`. -/
def Page.find (p : Page) (key : String) : Option Control :=
  p.controls.lookup key

/-- Locate a select element and return its visible option texts;
`none` models `NoSuchElementException`. -/
def Page.findSelect (p : Page) (key : String) : Option (List String) :=
  p.selects.lookup key

/-! ## Numeric Text Parser (`_extract_numeric_value`, identical in
src/calculator_scraper.py lines 242-272 and
src/python-scraper/calculator_scraper.py lines 469-499) -/

/-- The text read from an element in `_extract_numeric_value`:
`element.get_attribute('value') or ''` for inputs, `element.text.strip()`
otherwise. -/
def controlText (c : Control) : String :=
  match c.tag with
  | .input => c.attrValue.getD ""
  | .other => pyStrip c.text

/-- The cleaning step: keep digits and `.,- ` (space), then delete
spaces and turn commas into dots. -/
def numericClean (text : String) : String :=
  String.mk (((text.data.filter
      (fun c => pyIsDigit c || c = '.' || c = ',' || c = '-' || c = ' ')).filter
    (fun c => c ≠ ' ')).map (fun c => if c = ',' then '.' else c))

/-- Text stage of `_extract_numeric_value`: dash-marker check, cleaning,
negative-sign detection, `float` conversion.  `Except.error` models the
`ValueError` that `float` raises on malformed text (caught by the
function's own handler, below). -/
def extract_numeric_text (text : String) : Except String (Option ℚ) :=
  if text = "" || text = "―" || text = "—" || text = "-" then .ok none
  else
    let cleaned := numericClean text
    let isNeg := cleaned.data.contains '-' || text.data.contains '−'
    let stripped := String.mk ((cleaned.data.filter (fun c => c ≠ '-')).filter
      (fun c => c ≠ '−'))
    if stripped = "" then .ok none
    else
      match pyFloat stripped with
      | some v => .ok (some (if isNeg then -v else v))
      | none => .error "ValueError"

/-- Body of `_extract_numeric_value` before its `except` handler:
element lookup (which can raise `NoSuchElementException`) followed by the
text stage. -/
def extract_numeric_value_body (page : Page) (selector : String) :
    Except String (Option ℚ) :=
  match page.find selector with
  | none => .error "NoSuchElementException"
  | some el => extract_numeric_text (controlText el)

/-- `_extract_numeric_value`: the whole body runs inside
`try: ... except Exception: return None`, so the caller-visible result is
always `Except.ok`. -/
def extract_numeric_value (page : Page) (selector : String) :
    Except String (Option ℚ) :=
  match extract_numeric_value_body page selector with
  | .ok v => .ok v
  | .error _ => .ok none

/-- The value `_extract_numeric_value` returns (it never raises). -/
def extract_numeric_value_opt (page : Page) (selector : String) : Option ℚ :=
  match extract_numeric_value page selector with
  | .ok v => v
  | .error _ => none

/-! ## mfq value conversion (src/python-scraper/mfq_scraper_simple.py,
`extract_results` lines 258-283) -/

/-- The text the mfq extractor reads from an element:
`get_attribute('value')` for inputs (no `or ''` here, so the attribute
may be observed as `None`), `element.text.strip()` otherwise. -/
def mfqControlText (c : Control) : Option String :=
  match c.tag with
  | .input => c.attrValue
  | .other => some (pyStrip c.text)

/-- The mfq per-key value conversion: dashes/empty/`None` become `0`;
otherwise delete spaces, comma → dot, Unicode minus → hyphen, unwrap a
`(...)` pair into a leading minus, then `float`; any `ValueError` is
caught by the per-key handler and also yields `0`. -/
def mfq_parse_value (text : Option String) : ℚ :=
  match text with
  | none => 0
  | some t =>
    if t = "―" || t = "—" || t = "-" || t = "" then 0
    else
      let t2 := String.mk ((t.data.filter (fun c => c ≠ ' ')).map
        (fun c => if c = ',' then '.' else if c = '−' then '-' else c))
      let t3 :=
        if t2.data.head? = some '(' && t2.data.getLast? = some ')' then
          String.mk ('-' :: (t2.data.drop 1).dropLast)
        else t2
      match pyFloat t3 with
      | some v => v
      | none => 0

/-- mfq per-key extraction: a missing element (or any other exception)
yields `0` for that key. -/
def mfq_extract_value (page : Page) (elementId : String) : ℚ :=
  match page.find elementId with
  | none => 0
  | some el => mfq_parse_value (mfqControlText el)

/-! ## Household Model (§3 of the spec; the JSON shape documented in
`scrape_calculator`) -/

/-- One adult: `primaryPerson` or `spouse`. -/
structure Person where
  age : Nat
  grossWorkIncome : Nat
  grossRetirementIncome : Nat
  isRetired : Bool
deriving DecidableEq

/-- One child record; `none` models an absent JSON key. -/
structure Child where
  age : Option Nat
  childcare_expenses : Option Nat
  childcare_type : Option String
deriving DecidableEq

/-- The household input record. -/
structure Household where
  householdType : String
  primaryPerson : Person
  spouse : Option Person
  children : List Child
  /-- `numChildren`; `none` models an absent JSON key
  (`household_data.get('numChildren', 0)`). -/
  numChildren : Option Nat
  taxYear : Nat
deriving DecidableEq

/-! ## Field Mapper -/

/-- `_map_household_type` (identical in src/calculator_scraper.py lines
274-283 and src/python-scraper/calculator_scraper.py lines 501-510):
`dict.get` with default `'Personne vivant seule'`. -/
def map_household_type (householdType : String) : String :=
  if householdType = "single" then "Personne vivant seule"
  else if householdType = "single_parent" then "Famille monoparentale"
  else if householdType = "couple" then "Couple"
  else if householdType = "retired_single" then "Retraité vivant seul"
  else if householdType = "retired_couple" then "Couple de retraités"
  else "Personne vivant seule"

/-- The income figure both fillers write for a person:
`grossRetirementIncome` if `isRetired` else `grossWorkIncome`
(src/python-scraper/calculator_scraper.py lines 136 and 146,
src/python-scraper/mfq_scraper_simple.py lines 115-120 and 145-148). -/
def incomeToUse (p : Person) : Nat :=
  if p.isRetired then p.grossRetirementIncome else p.grossWorkIncome

/-- Situation-label selection of the mfq filler
(src/python-scraper/mfq_scraper_simple.py, `fill_form` lines 83-107). -/
def mfqSituationLabel (h : Household) : String :=
  match h.spouse with
  | some person2 =>
      if h.primaryPerson.isRetired && person2.isRetired then "Couple de retraités"
      else "Couple"
  | none =>
      if h.primaryPerson.isRetired then "Retraité vivant seul"
      else if h.numChildren.getD 0 > 0 then "Famille monoparentale"
      else "Personne vivant seule"

/-! ## Stabilization Waiter (`_wait_for_calculation_complete`,
src/python-scraper/calculator_scraper.py lines 252-303)

One poll of the loop reads the designated output control's current value;
the sequence of values read at the successive poll instants within the
`max_wait` window is modelled as a list of strings (the list ending
models the timeout).  The loop state is the previously recorded
normalized value and the consecutive-stable counter. -/

/-- Outcome of the wait: at which poll (0-based) `True` was returned, if
any, and whether the extra one-second grace sleep before returning was
performed. -/
structure WaitOutcome where
  stableIndex : Option Nat
  graceSlept : Bool
deriving DecidableEq

/-- Normalization applied before comparing two polls: remove ASCII
spaces, then narrow no-break spaces — `replace(' ', '').replace(' ', '')`. -/
def cleanObserved (s : String) : String :=
  String.mk ((s.data.filter (fun c => c ≠ ' ')).filter (fun c => c ≠ ' '))

/-- The poll loop.  A value that is falsy, `'0'` or `''` is skipped
without touching the state; otherwise the normalized value is compared
with the previous one, and on the second consecutive match the loop
reports success (after the grace sleep). -/
def waitLoop (prev : Option String) (stableCount : Nat) :
    List String → Nat → WaitOutcome
  | [], _ => ⟨none, false⟩
  | v :: rest, idx =>
    if v ≠ "" ∧ v ≠ "0" then
      let clean := cleanObserved v
      if some clean = prev then
        if stableCount + 1 ≥ 2 then ⟨some idx, true⟩
        else waitLoop prev (stableCount + 1) rest (idx + 1)
      else waitLoop (some clean) 0 rest (idx + 1)
    else waitLoop prev stableCount rest (idx + 1)

/-- `_wait_for_calculation_complete` on the sequence of observed values:
`previous_value = None`, `stable_count = 0` initially. -/
def wait_for_calculation_complete (observed : List String) : WaitOutcome :=
  waitLoop none 0 observed 0

/-! ## Result Extractor (src/python-scraper/calculator_scraper.py,
`_extract_results` lines 305-467) -/

/-- The `results` dict: logical key ↦ `float` (`some q`) or `None`
(`none`).  A key not in the list was never assigned. -/
abbrev ResultSet := List (String × Option ℚ)

/-- Python dict assignment `results[key] = v`: overwrite in place or
append. -/
def rsInsert (rs : ResultSet) (key : String) (v : Option ℚ) : ResultSet :=
  match rs with
  | [] => [(key, v)]
  | (k, w) :: rest => if k = key then (key, v) :: rest else (k, w) :: rsInsert rest key v

/-- `results.get(key)` seen as `Option (Option ℚ)`: `none` = key absent,
`some none` = key present with value `None`. -/
def rsGet (rs : ResultSet) (key : String) : Option (Option ℚ) :=
  match rs with
  | [] => none
  | (k, v) :: rest => if k = key then some v else rsGet rest key

/-- Header/title cell texts skipped by the table scan (line 333). -/
def scanTitles : List String :=
  ["2024", "2025", "Écart", "Revenu disponible", "Régime fiscal du Québec",
   "Régime fiscal fédéral", "Cotisations", "Frais de garde"]

/-- The regex `^\d{1,2}\s\d{3}$` (line 337): one or two digits, one
whitespace character, three digits. -/
def amountPattern (s : String) : Bool :=
  match s.data with
  | [a, w, c, d, e] =>
      pyIsDigit a && pyIsSpace w && pyIsDigit c && pyIsDigit d && pyIsDigit e
  | [a, b, w, c, d, e] =>
      pyIsDigit a && pyIsDigit b && pyIsSpace w && pyIsDigit c && pyIsDigit d
        && pyIsDigit e
  | _ => false

/-- Row-context text of a cell: the XPath parent's stripped text, or `""`
when the parent lookup raises (lines 339-344). -/
def cellRowText (c : Cell) : String :=
  (c.parentText.map pyStrip).getD ""

/-- One iteration of the opportunistic table scan (lines 328-379): skip
titles; on a grouped-digit amount classify by substrings of the lowered
row text; on a dash cell record `frais_garde = 0` for a childcare row.
The per-cell `except ... continue` makes a failing `int` skip the
cell. -/
def scanCell (acc : ResultSet) (cell : Cell) : ResultSet :=
  let text := pyStrip cell.text
  if text ∈ scanTitles then acc
  else if amountPattern text then
    match pyInt (String.mk (text.data.filter (fun c => c ≠ ' '))) with
    | none => acc
    | some number =>
      let pt := pyLower (cellRowText cell)
      if pyContains pt "disponible" then
        rsInsert acc "revenu_disponible" (some (mkRat number 1))
      else if pyContains pt "québec" && pyContains pt "régime" then
        rsInsert acc "qc_regime_fiscal_total" (some (mkRat number 1))
      else if pyContains pt "fédéral" && pyContains pt "régime" then
        rsInsert acc "ca_regime_fiscal_total" (some (mkRat number 1))
      else if pyContains pt "cotisations" then
        rsInsert acc "cotisations_total" (some (-(mkRat number.natAbs 1)))
      else acc
  else if text = "—" || text = "-" then
    let pt := pyLower (cellRowText cell)
    if pyContains pt "garde" then rsInsert acc "frais_garde" (some 0) else acc
  else acc

/-- The full opportunistic scan over all `td`/`th` cells, starting from
the empty `results` dict. -/
def scan_results (page : Page) : ResultSet :=
  page.cells.foldl scanCell []

/-- The 2024 key → CSS-selector table (lines 393-419), identifiers with
the `_old` suffix. -/
def selectors_2024 : List (String × String) :=
  [("revenu_disponible", "#RD_old"),
   ("ae_total", "#CA_ae_old"),
   ("rrq_total", "#CA_rrq_old"),
   ("rqap_total", "#QC_rqap_old"),
   ("qc_regime_fiscal_total", "#QC_total_old"),
   ("ca_regime_fiscal_total", "#CA_total_old"),
   ("qc_impot", "#QC_impot_old"),
   ("ca_impot", "#CA_impot_old"),
   ("qc_solidarite", "#QC_sol_old"),
   ("ca_tps", "#CA_tps_old"),
   ("ca_pfrt", "#CA_pfrt_old"),
   ("qc_prime_travail", "#QC_pt_old"),
   ("ramq", "#QC_ramq_old"),
   ("fss", "#QC_fss_old"),
   ("qc_allocation_famille", "#QC_sae_old"),
   ("qc_fournitures_scolaires", "#SFS_old"),
   ("qc_garde_enfants", "#QC_garde_old"),
   ("qc_allocation_logement", "#QC_al_old"),
   ("qc_soutien_aines", "#QC_aines_old"),
   ("ca_allocation_enfants", "#CA_ace_old"),
   ("ca_pension_securite", "#CA_psv_old"),
   ("qc_aide_sociale", "#QC_adr_old"),
   ("qc_frais_medicaux", "#QC_medic_old"),
   ("ca_frais_medicaux", "#CA_medic_old"),
   ("cotisations_total", "#Cotisation_old")]

/-- The 2025 key → CSS-selector table (lines 422-448), identifiers with
the `_new` suffix. -/
def selectors_2025 : List (String × String) :=
  [("revenu_disponible", "#RD_new"),
   ("ae_total", "#CA_ae_new"),
   ("rrq_total", "#CA_rrq_new"),
   ("rqap_total", "#QC_rqap_new"),
   ("qc_regime_fiscal_total", "#QC_total_new"),
   ("ca_regime_fiscal_total", "#CA_total_new"),
   ("qc_impot", "#QC_impot_new"),
   ("ca_impot", "#CA_impot_new"),
   ("qc_solidarite", "#QC_sol_new"),
   ("ca_tps", "#CA_tps_new"),
   ("ca_pfrt", "#CA_pfrt_new"),
   ("qc_prime_travail", "#QC_pt_new"),
   ("ramq", "#QC_ramq_new"),
   ("fss", "#QC_fss_new"),
   ("qc_allocation_famille", "#QC_sae_new"),
   ("qc_fournitures_scolaires", "#SFS_new"),
   ("qc_garde_enfants", "#QC_garde_new"),
   ("qc_allocation_logement", "#QC_al_new"),
   ("qc_soutien_aines", "#QC_aines_new"),
   ("ca_allocation_enfants", "#CA_ace_new"),
   ("ca_pension_securite", "#CA_psv_new"),
   ("qc_aide_sociale", "#QC_adr_new"),
   ("qc_frais_medicaux", "#QC_medic_new"),
   ("ca_frais_medicaux", "#CA_medic_new"),
   ("cotisations_total", "#Cotisation_new")]

/-- The shared stems of the two tables, used to state that the tables
differ only in the year suffix. -/
def selectorStems : List (String × String) :=
  [("revenu_disponible", "#RD"),
   ("ae_total", "#CA_ae"),
   ("rrq_total", "#CA_rrq"),
   ("rqap_total", "#QC_rqap"),
   ("qc_regime_fiscal_total", "#QC_total"),
   ("ca_regime_fiscal_total", "#CA_total"),
   ("qc_impot", "#QC_impot"),
   ("ca_impot", "#CA_impot"),
   ("qc_solidarite", "#QC_sol"),
   ("ca_tps", "#CA_tps"),
   ("ca_pfrt", "#CA_pfrt"),
   ("qc_prime_travail", "#QC_pt"),
   ("ramq", "#QC_ramq"),
   ("fss", "#QC_fss"),
   ("qc_allocation_famille", "#QC_sae"),
   ("qc_fournitures_scolaires", "#SFS"),
   ("qc_garde_enfants", "#QC_garde"),
   ("qc_allocation_logement", "#QC_al"),
   ("qc_soutien_aines", "#QC_aines"),
   ("ca_allocation_enfants", "#CA_ace"),
   ("ca_pension_securite", "#CA_psv"),
   ("qc_aide_sociale", "#QC_adr"),
   ("qc_frais_medicaux", "#QC_medic"),
   ("ca_frais_medicaux", "#CA_medic"),
   ("cotisations_total", "#Cotisation")]

/-- Table selection (lines 451-452):
`selectors_2025 if tax_year >= 2025 else selectors_2024`. -/
def selectorsFor (taxYear : Nat) : List (String × String) :=
  if taxYear ≥ 2025 then selectors_2025 else selectors_2024

/-- The authoritative selector-based pass (lines 456-464): for each key,
a parsed value is stored, a `None` result leaves the key untouched, and
an exception from `_extract_numeric_value` (never raised in fact) would
store `None`. -/
def selector_pass (page : Page) : List (String × String) → ResultSet → ResultSet
  | [], acc => acc
  | (key, sel) :: rest, acc =>
      selector_pass page rest
        (match extract_numeric_value page sel with
         | .ok (some v) => rsInsert acc key (some v)
         | .ok none => acc
         | .error _ => rsInsert acc key none)

/-- `_extract_results`: the opportunistic scan populates the fresh dict,
then the selector pass for the household's tax year
(`household_data.get('taxYear', 2024)`) runs on top of it.  (The
stabilization wait called at the top of `_extract_results` discards its
boolean and does not touch the dict; it is modelled separately by
`wait_for_calculation_complete`.) -/
def extract_results (taxYear : Nat) (page : Page) : ResultSet :=
  selector_pass page (selectorsFor taxYear) (scan_results page)

/-! ## mfq result-id table (src/python-scraper/mfq_scraper_simple.py,
`extract_results` lines 220-254) -/

/-- `suffix = '_old' if tax_year == 2024 else '_new'` (line 224). -/
def mfqSuffix (taxYear : Nat) : String :=
  if taxYear = 2024 then "_old" else "_new"

/-- The stems of the mfq `result_ids` dict, in source order. -/
def mfqResultStems : List (String × String) :=
  [("revenu_disponible", "RD"),
   ("qc_impot_total", "QC_total"),
   ("qc_impot", "QC_impot"),
   ("qc_aide_sociale", "QC_adr"),
   ("qc_allocation_famille", "QC_sae"),
   ("qc_fournitures_scolaires", "SFS"),
   ("qc_prime_travail", "QC_pt"),
   ("qc_solidarite", "QC_sol"),
   ("qc_garde_enfants", "QC_garde"),
   ("qc_allocation_logement", "QC_al"),
   ("qc_frais_medicaux", "QC_medic"),
   ("qc_soutien_aines", "QC_aines"),
   ("ca_impot_total", "CA_total"),
   ("ca_impot", "CA_impot"),
   ("ca_allocation_enfants", "CA_ace"),
   ("ca_tps", "CA_tps"),
   ("ca_pfrt", "CA_pfrt"),
   ("ca_pension_securite", "CA_psv"),
   ("ca_frais_medicaux", "CA_medic"),
   ("cotisations_total", "Cotisation"),
   ("ae_total", "CA_ae"),
   ("rqap_total", "QC_rqap"),
   ("rrq_total", "CA_rrq"),
   ("fss", "QC_fss"),
   ("ramq", "QC_ramq"),
   ("frais_garde", "Frais_garde")]

/-- The mfq `result_ids` dict: every element id is the stem with the
year's suffix appended (f-string interpolation, lines 227-254). -/
def mfqResultIds (taxYear : Nat) : List (String × String) :=
  mfqResultStems.map (fun kv => (kv.1, kv.2 ++ mfqSuffix taxYear))

/-! ## Form Filler

Both fillers are modelled as producing the ordered list of form
interactions they perform.  The per-child interactions record the slot
number explicitly (the source derives the element id from it by f-string
interpolation: `#AgeEnfant{i}` / `AgeEnfant{n}`, `Frais{n}`,
`type_garde{n}`). -/

/-- One form interaction. -/
inductive Action where
  | selectOption (selectId : String) (label : String)
  | fillField (selector : String) (value : String)
  | fillChildAge (slot : Nat) (value : String)
  | fillChildFrais (slot : Nat) (value : String)
  | selectChildType (slot : Nat) (label : String)
deriving DecidableEq

/-- The child slot an action addresses, if it is a per-child action. -/
def Action.childSlot : Action → Option Nat
  | .fillChildAge n _ => some n
  | .fillChildFrais n _ => some n
  | .selectChildType n _ => some n
  | _ => none

/-- `Select(find_element(id)).select_by_visible_text(label)`: raises if
the select is absent or has no option with that visible text. -/
def selectVisible (page : Page) (selectId label : String) : Except String Unit :=
  match page.findSelect selectId with
  | none => .error "NoSuchElementException"
  | some opts => if label ∈ opts then .ok () else .error "NoSuchElementException"

/-- `find_element(id)` where the caller does not catch the exception. -/
def requireControl (page : Page) (elementId : String) : Except String Unit :=
  match page.find elementId with
  | some _ => .ok ()
  | none => .error "NoSuchElementException"

/-- `_fill_field` (src/python-scraper/calculator_scraper.py lines
203-250): the whole body is inside `try ... except` that only prints, so
a missing control produces no write and no exception; otherwise the
target value is written (possibly through the JavaScript fallback, which
writes the same value). -/
def fill_field (page : Page) (selector value : String) : List Action :=
  match page.find selector with
  | some _ => [.fillField selector value]
  | none => []

/-- Sequencing of a fallible step whose result value is unused. -/
def seqE {α : Type} (e : Except String Unit) (k : Except String α) :
    Except String α :=
  match e with
  | .ok _ => k
  | .error msg => .error msg

/-- The `children_options` literal of `_fill_form` (lines 158-164):
visible texts for one to five children; `none` for any other count
("Nombre d'enfants non supporté"). -/
def childrenOptionLabel (n : Nat) : Option String :=
  if n = 1 then some "Un enfant"
  else if n = 2 then some "Deux enfants"
  else if n = 3 then some "Trois enfants"
  else if n = 4 then some "Quatre enfants"
  else if n = 5 then some "Cinq enfants"
  else none

/-- `num_children = len(children) if children else
household_data.get('numChildren', 0)` (line 153). -/
def calcNumChildren (h : Household) : Nat :=
  if h.children ≠ [] then h.children.length else h.numChildren.getD 0

/-- The per-child age loop (lines 180-192): `enumerate(children, 1)`
with a `break` past slot 5; each write uses `_fill_field` on
`#AgeEnfant{i}` with `str(child.get('age', 0))`. -/
def calcChildAgeActs (page : Page) : List Child → Nat → List Action
  | [], _ => []
  | c :: rest, i =>
    if i > 5 then []
    else
      (match page.find ("#AgeEnfant" ++ toString i) with
       | some _ => [Action.fillChildAge i (toString (c.age.getD 0))]
       | none => []) ++ calcChildAgeActs page rest (i + 1)

/-- The children section of `_fill_form` (lines 151-199): run only when
the count is positive; locate the `NbEnfants` select (a failure here is
re-raised by the section's `except ... raise`), select the count's label
when the count is supported (1-5), warn and skip the selection otherwise,
then fill the per-child ages. -/
def calcChildrenSection (page : Page) (h : Household) :
    Except String (List Action) :=
  if calcNumChildren h > 0 then
    match page.findSelect "NbEnfants" with
    | none => .error "NoSuchElementException"
    | some opts =>
      match childrenOptionLabel (calcNumChildren h) with
      | some label =>
          if label ∈ opts then
            .ok ([Action.selectOption "NbEnfants" label]
              ++ calcChildAgeActs page h.children 1)
          else .error "NoSuchElementException"
      | none => .ok (calcChildAgeActs page h.children 1)
  else .ok []

/-- `_fill_form` (src/python-scraper/calculator_scraper.py lines
124-201): situation select (uncaught), primary income/age, optional
spouse income/age (all through `_fill_field`), then the children
section. -/
def fill_form (page : Page) (h : Household) : Except String (List Action) :=
  let situation := map_household_type h.householdType
  seqE (selectVisible page "Situation" situation) <|
  match calcChildrenSection page h with
  | .error e => .error e
  | .ok childActs =>
      .ok ([Action.selectOption "Situation" situation]
        ++ fill_field page "#Revenu1" (toString (incomeToUse h.primaryPerson))
        ++ fill_field page "#AgeAdulte1" (toString h.primaryPerson.age)
        ++ (match h.spouse with
            | some sp =>
                fill_field page "#Revenu2" (toString (incomeToUse sp))
                  ++ fill_field page "#AgeAdulte2" (toString sp.age)
            | none => [])
        ++ childActs)

/-- One mfq child slot (src/python-scraper/mfq_scraper_simple.py lines
174-218), 0-based loop index `i`, slot number `i + 1`; every interaction
is inside its own `try ... except: pass`, so a missing field or option
is skipped silently.  Age default `5 + i`, childcare-expense default
`"0"`. -/
def mfqChildSlot (page : Page) (children : List Child) (i : Nat) : List Action :=
  let n := i + 1
  (match page.find ("AgeEnfant" ++ toString n) with
   | some _ =>
      [Action.fillChildAge n (toString
        (match (children.get? i).bind Child.age with
         | some a => a
         | none => 5 + i))]
   | none => [])
  ++ (match page.find ("Frais" ++ toString n) with
      | some _ =>
        [Action.fillChildFrais n
          (match (children.get? i).bind Child.childcare_expenses with
           | some e => toString e
           | none => "0")]
      | none => [])
  ++ (match page.findSelect ("type_garde" ++ toString n),
        (children.get? i).bind Child.childcare_type with
      | some opts, some ty => if ty ∈ opts then [Action.selectChildType n ty] else []
      | _, _ => [])

/-- `fill_form` of the mfq scraper (src/python-scraper/mfq_scraper_simple.py
lines 80-218): situation select, primary fields, optional spouse fields
(each `find_element` uncaught), then the `NbEnfants` selection with label
`"Aucun enfant"` or `str(num_children)` (uncaught), then the bounded
child-slot loop `range(min(num_children, 5))`. -/
def mfq_fill_form (page : Page) (h : Household) : Except String (List Action) :=
  let situation := mfqSituationLabel h
  let n := h.numChildren.getD 0
  let childrenLabel := if n = 0 then "Aucun enfant" else toString n
  seqE (selectVisible page "Situation" situation) <|
  seqE (requireControl page "Revenu1") <|
  seqE (requireControl page "AgeAdulte1") <|
  seqE (match h.spouse with
        | some _ =>
            seqE (requireControl page "Revenu2") (requireControl page "AgeAdulte2")
        | none => .ok ()) <|
  seqE (selectVisible page "NbEnfants" childrenLabel) <|
  .ok ([Action.selectOption "Situation" situation,
        Action.fillField "Revenu1" (toString (incomeToUse h.primaryPerson)),
        Action.fillField "AgeAdulte1" (toString h.primaryPerson.age)]
    ++ (match h.spouse with
        | some sp =>
            [Action.fillField "Revenu2" (toString (incomeToUse sp)),
             Action.fillField "AgeAdulte2" (toString sp.age)]
        | none => [])
    ++ [Action.selectOption "NbEnfants" childrenLabel]
    ++ (List.range (min n 5)).foldr
        (fun i acc => mfqChildSlot page h.children i ++ acc) [])

end Revdisp

-- Decidable equality on the exception-modelling results, for concrete
-- evaluations in witnesses and counterexamples.
deriving instance DecidableEq for Except

namespace Revdisp

/-! ## Concrete pages and households used by counterexamples and
witnesses -/

/-- A page whose `#RD_old` output control renders the dash "no value"
marker and whose `#CA_ae_old` control holds `829`; every other control is
absent and there are no table cells. -/
def pageDash : Page :=
  { controls := [("#RD_old", ⟨.input, some "—", ""⟩),
                 ("#CA_ae_old", ⟨.input, some "829", ""⟩)],
    selects := [], cells := [] }

/-- The situation labels the page's `Situation` select offers. -/
def situationLabels : List String :=
  ["Personne vivant seule", "Famille monoparentale", "Couple",
   "Retraité vivant seul", "Couple de retraités"]

/-- A fully rendered form page: the adult income/age controls under both
locator schemes, the `Situation` select with the five labels, and a
`NbEnfants` select bounded at five children (both option-label styles). -/
def pageForm : Page :=
  { controls := [("#Revenu1", ⟨.input, some "", ""⟩),
                 ("#AgeAdulte1", ⟨.input, some "", ""⟩),
                 ("#Revenu2", ⟨.input, some "", ""⟩),
                 ("#AgeAdulte2", ⟨.input, some "", ""⟩),
                 ("Revenu1", ⟨.input, some "", ""⟩),
                 ("AgeAdulte1", ⟨.input, some "", ""⟩),
                 ("Revenu2", ⟨.input, some "", ""⟩),
                 ("AgeAdulte2", ⟨.input, some "", ""⟩)],
    selects := [("Situation", situationLabels),
                ("NbEnfants",
                 ["Aucun enfant", "Un enfant", "Deux enfants", "Trois enfants",
                  "Quatre enfants", "Cinq enfants", "1", "2", "3", "4", "5"])],
    cells := [] }

/-- A retired single person whose (ignored) work income is nonzero. -/
def householdRetiredSingle : Household :=
  { householdType := "retired_single",
    primaryPerson := ⟨70, 12000, 22000, true⟩,
    spouse := none, children := [], numChildren := some 0, taxYear := 2024 }

/-- A single-parent household declaring six children. -/
def householdSixChildren : Household :=
  { householdType := "single_parent",
    primaryPerson := ⟨35, 15000, 0, false⟩,
    spouse := none,
    children := [⟨some 1, none, none⟩, ⟨some 2, none, none⟩, ⟨some 3, none, none⟩,
                 ⟨some 4, none, none⟩, ⟨some 5, none, none⟩, ⟨some 6, none, none⟩],
    numChildren := some 6, taxYear := 2024 }

/-- A retired couple household. -/
def householdRetiredCouple : Household :=
  { householdType := "retired_couple",
    primaryPerson := ⟨70, 0, 30000, true⟩,
    spouse := some ⟨68, 5000, 20000, true⟩,
    children := [], numChildren := some 0, taxYear := 2025 }

end Revdisp
namespace Revdisp

/-! ## Supporting lemmas -/

/-- The `except` handler of `_extract_numeric_value` makes the function
return normally on every input. -/
theorem extract_numeric_value_isOk (page : Page) (selector : String) :
    ∃ v : Option ℚ, extract_numeric_value page selector = .ok v := by
  unfold extract_numeric_value
  cases extract_numeric_value_body page selector with
  | ok v => exact ⟨v, rfl⟩
  | error e => exact ⟨none, rfl⟩

theorem rsGet_rsInsert_self (rs : ResultSet) (k : String) (v : Option ℚ) :
    rsGet (rsInsert rs k v) k = some v := by
  induction rs with
  | nil => simp [rsInsert, rsGet]
  | cons head tail ih =>
    obtain ⟨k', w⟩ := head
    by_cases hk : k' = k
    · subst hk; simp [rsInsert, rsGet]
    · simp [rsInsert, rsGet, hk, ih]

theorem rsGet_rsInsert_ne (rs : ResultSet) (k k' : String) (v : Option ℚ)
    (h : k ≠ k') : rsGet (rsInsert rs k v) k' = rsGet rs k' := by
  induction rs with
  | nil => simp [rsInsert, rsGet, h]
  | cons head tail ih =>
    obtain ⟨k₀, w⟩ := head
    by_cases hk : k₀ = k
    · subst hk; simp [rsInsert, rsGet, h]
    · simp [rsInsert, rsGet, hk, ih]

theorem rsGet_rsInsert_some_ne_null (rs : ResultSet) (key : String) (x : ℚ)
    (k : String) (h : rsGet rs k ≠ some none) :
    rsGet (rsInsert rs key (some x)) k ≠ some none := by
  by_cases hk : key = k
  · subst hk; rw [rsGet_rsInsert_self]; simp
  · rw [rsGet_rsInsert_ne _ _ _ _ hk]; exact h

/-- The table scan only ever stores actual numbers, never `None`. -/
theorem scanCell_ne_null (acc : ResultSet) (cell : Cell) (k : String)
    (h : rsGet acc k ≠ some none) : rsGet (scanCell acc cell) k ≠ some none := by
  unfold scanCell
  dsimp only
  repeat' split
  all_goals first
    | exact h
    | exact rsGet_rsInsert_some_ne_null _ _ _ _ h

theorem foldl_scanCell_ne_null (cells : List Cell) (acc : ResultSet)
    (k : String) (h : rsGet acc k ≠ some none) :
    rsGet (cells.foldl scanCell acc) k ≠ some none := by
  induction cells generalizing acc with
  | nil => exact h
  | cons c rest ih => exact ih _ (scanCell_ne_null _ _ _ h)

theorem scan_results_ne_null (page : Page) (k : String) :
    rsGet (scan_results page) k ≠ some none := by
  unfold scan_results
  exact foldl_scanCell_ne_null _ _ _ (by simp [rsGet])

/-- The selector pass leaves keys outside the processed list untouched. -/
theorem rsGet_selector_pass_notMem (page : Page) (l : List (String × String))
    (acc : ResultSet) (k : String) (h : k ∉ l.map Prod.fst) :
    rsGet (selector_pass page l acc) k = rsGet acc k := by
  induction l generalizing acc with
  | nil => rfl
  | cons head tail ih =>
    obtain ⟨k', s⟩ := head
    simp only [List.map_cons, List.mem_cons, not_or] at h
    obtain ⟨hne, htail⟩ := h
    simp only [selector_pass]
    rw [ih _ htail]
    cases hE : extract_numeric_value page s with
    | ok v =>
      cases v with
      | some q => exact rsGet_rsInsert_ne _ _ _ _ (fun e => hne e.symm)
      | none => rfl
    | error e => exact rsGet_rsInsert_ne _ _ _ _ (fun e' => hne e'.symm)

/-- What the selector pass stores for a key of the table (the table's
keys being distinct): the parsed value if one was obtained, the incoming
value if the per-key extraction returned `None`, and `None` if it raised
(which it never does). -/
theorem rsGet_selector_pass_mem (page : Page) (l : List (String × String))
    (acc : ResultSet) (k s : String) (hmem : (k, s) ∈ l)
    (hnodup : (l.map Prod.fst).Nodup) :
    rsGet (selector_pass page l acc) k =
      (match extract_numeric_value page s with
       | .ok (some v) => some (some v)
       | .ok none => rsGet acc k
       | .error _ => some none) := by
  induction l generalizing acc with
  | nil => cases hmem
  | cons head tail ih =>
    obtain ⟨k', s'⟩ := head
    simp only [List.map_cons, List.nodup_cons] at hnodup
    obtain ⟨hk'nin, htailnodup⟩ := hnodup
    rcases List.mem_cons.mp hmem with heq | htail
    · obtain ⟨hk, hs⟩ := Prod.mk.injEq .. ▸ heq
      subst hk; subst hs
      simp only [selector_pass]
      rw [rsGet_selector_pass_notMem _ _ _ _ hk'nin]
      cases hE : extract_numeric_value page s with
      | ok v =>
        cases v with
        | some q => simp [rsGet_rsInsert_self]
        | none => rfl
      | error e => simp [rsGet_rsInsert_self]
    · have hkne : k' ≠ k := by
        intro e
        exact hk'nin (e ▸ List.mem_map_of_mem Prod.fst htail)
      have hstep : ∀ acc' : ResultSet,
          rsGet (selector_pass page tail acc') k =
            (match extract_numeric_value page s with
             | .ok (some v) => some (some v)
             | .ok none => rsGet acc' k
             | .error _ => some none) :=
        fun acc' => ih acc' htail htailnodup
      simp only [selector_pass]
      rw [hstep]
      cases hE : extract_numeric_value page s' with
      | ok v =>
        cases v with
        | some q => rw [rsGet_rsInsert_ne _ _ _ _ hkne]
        | none => rfl
      | error e => rw [rsGet_rsInsert_ne _ _ _ _ hkne]

/-- Both selector tables have pairwise distinct keys. -/
theorem selectorsFor_nodup (taxYear : Nat) :
    ((selectorsFor taxYear).map Prod.fst).Nodup := by
  unfold selectorsFor
  split
  · decide
  · decide

/-- The selector pass never stores `None` when the per-key extraction
returns normally (as it always does). -/
theorem selector_pass_ne_null (page : Page) (l : List (String × String))
    (acc : ResultSet) (k : String) (h : rsGet acc k ≠ some none) :
    rsGet (selector_pass page l acc) k ≠ some none := by
  induction l generalizing acc with
  | nil => exact h
  | cons head tail ih =>
    obtain ⟨k', s⟩ := head
    simp only [selector_pass]
    obtain ⟨v, hv⟩ := extract_numeric_value_isOk page s
    rw [hv]
    cases v with
    | some q => exact ih _ (rsGet_rsInsert_some_ne_null _ _ _ _ h)
    | none => exact ih _ h

end Revdisp
namespace Revdisp

/-- C1 (amended): in the ResultSet of one extraction pass no key is ever
mapped to null — the per-key extractor traps all of its own failures and
returns `None`, so the loop branch that would write `null` is
unreachable; a key of the selector table whose control parses to a value
always receives that value, whatever the state of the other controls;
and a key whose control is absent, shows the dash marker, or is
unparsable is left exactly as the opportunistic scan left it, hence
missing from the mapping when the scan did not set it. -/
theorem claim_C1 (taxYear : Nat) (page : Page) :
    (∀ k, rsGet (extract_results taxYear page) k ≠ some none)
    ∧ (∀ k s v, (k, s) ∈ selectorsFor taxYear →
        extract_numeric_value page s = .ok (some v) →
        rsGet (extract_results taxYear page) k = some (some v))
    ∧ (∀ k s, (k, s) ∈ selectorsFor taxYear →
        extract_numeric_value page s = .ok none →
        rsGet (extract_results taxYear page) k = rsGet (scan_results page) k) := by
  refine ⟨?_, ?_, ?_⟩
  · intro k
    exact selector_pass_ne_null _ _ _ _ (scan_results_ne_null page k)
  · intro k s v hmem hE
    unfold extract_results
    rw [rsGet_selector_pass_mem _ _ _ _ _ hmem (selectorsFor_nodup taxYear), hE]
  · intro k s hmem hE
    unfold extract_results
    rw [rsGet_selector_pass_mem _ _ _ _ _ hmem (selectorsFor_nodup taxYear), hE]

/-- Witness for C1: on `pageDash` the parsable `ae_total` control yields
its value, and the dashed `revenu_disponible` key is left as the (empty)
scan left it. -/
theorem claim_C1_witness :
    rsGet (extract_results 2024 pageDash) "ae_total" = some (some 829)
    ∧ rsGet (extract_results 2024 pageDash) "revenu_disponible" =
        rsGet (scan_results pageDash) "revenu_disponible" :=
  ⟨(claim_C1 2024 pageDash).2.1 "ae_total" "#CA_ae_old" 829 (by decide) (by decide),
   (claim_C1 2024 pageDash).2.2 "revenu_disponible" "#RD_old" (by decide) (by decide)⟩

/-- C1 counterexample: `pageDash` renders the explicit dash marker for
the `revenu_disponible` control, yet after extraction the key is absent
from the mapping (`rsGet` is `none`) rather than mapped to null
(`some none`), while extraction of the remaining keys still completed
(`ae_total` received its value). -/
theorem claim_C1_counterexample :
    pageDash.find "#RD_old" = some ⟨Tag.input, some "—", ""⟩
    ∧ rsGet (extract_results 2024 pageDash) "revenu_disponible" = none
    ∧ rsGet (extract_results 2024 pageDash) "revenu_disponible" ≠ some none
    ∧ rsGet (extract_results 2024 pageDash) "ae_total" = some (some 829) := by
  decide

/-- C2 (amended): parenthesized negatives are honoured only by the mfq
extractor's inline parser, which yields `-123` for `"(123)"` and
`-103.32` for `"(103,32)"`; the shared `_extract_numeric_value` parser
instead strips the parentheses as non-numeric characters without
negating, yielding the positive values `123` and `103.32`. -/
theorem claim_C2 :
    mfq_parse_value (some "(123)") = -123
    ∧ mfq_parse_value (some "(103,32)") = -103.32
    ∧ extract_numeric_text "(123)" = .ok (some 123)
    ∧ extract_numeric_text "(103,32)" = .ok (some 103.32) := by
  refine ⟨by decide, ?_, by decide, ?_⟩
  · rw [show (-103.32 : ℚ) = mkRat (-10332) 100 by rw [Rat.mkRat_eq_div]; norm_num]
    decide
  · rw [show (103.32 : ℚ) = mkRat 10332 100 by rw [Rat.mkRat_eq_div]; norm_num]
    decide

/-- C2 counterexample: on the parenthesized input `"(123)"` the numeric
text parser `_extract_numeric_value` returns `123`, not the negated
`-123` the claim requires. -/
theorem claim_C2_counterexample :
    extract_numeric_text "(123)" = .ok (some 123)
    ∧ extract_numeric_text "(123)" ≠ .ok (some (-123)) := by decide

/-- C3: on the observation sequence `["0","0","150","150","150"]` the
stabilization waiter declares stability exactly at index 4 — the third
consecutive observation of `"150"` (the repeated `"0"`s are skipped as
falsy-or-zero) — and performs the extra grace sleep before returning
success; on the prefix that lacks the third `"150"` it instead runs out
of observations (timeout, no grace sleep). -/
theorem claim_C3 :
    wait_for_calculation_complete ["0", "0", "150", "150", "150"] =
      ⟨some 4, true⟩
    ∧ ["0", "0", "150", "150", "150"].count "150" = 3
    ∧ wait_for_calculation_complete ["0", "0", "150", "150"] = ⟨none, false⟩ := by
  decide

end Revdisp
namespace Revdisp

/-- C4: whenever both adults are retired the situation label is
`"Couple de retraités"`, never `"Couple"`; and the label resolution
follows the stated priority order — spouse present without both retired
gives `"Couple"`, a retired single gives `"Retraité vivant seul"`, a
non-retired single with children gives `"Famille monoparentale"`, and
otherwise `"Personne vivant seule"`; the static table likewise maps
`retired_couple` to the retired-couple label. -/
theorem claim_C4 (h : Household) :
    (∀ p2, h.spouse = some p2 → h.primaryPerson.isRetired = true →
      p2.isRetired = true →
      mfqSituationLabel h = "Couple de retraités" ∧ mfqSituationLabel h ≠ "Couple")
    ∧ (∀ p2, h.spouse = some p2 →
        (h.primaryPerson.isRetired = false ∨ p2.isRetired = false) →
        mfqSituationLabel h = "Couple")
    ∧ (h.spouse = none → h.primaryPerson.isRetired = true →
        mfqSituationLabel h = "Retraité vivant seul")
    ∧ (h.spouse = none → h.primaryPerson.isRetired = false →
        h.numChildren.getD 0 > 0 → mfqSituationLabel h = "Famille monoparentale")
    ∧ (h.spouse = none → h.primaryPerson.isRetired = false →
        h.numChildren.getD 0 = 0 → mfqSituationLabel h = "Personne vivant seule")
    ∧ map_household_type "retired_couple" = "Couple de retraités" := by
  refine ⟨?_, ?_, ?_, ?_, ?_, by decide⟩
  · intro p2 hsp h1 h2
    constructor
    · simp [mfqSituationLabel, hsp, h1, h2]
    · simp [mfqSituationLabel, hsp, h1, h2]
  · intro p2 hsp hor
    rcases hor with h1 | h2
    · simp [mfqSituationLabel, hsp, h1]
    · simp [mfqSituationLabel, hsp, h2]
  · intro hsp h1
    simp [mfqSituationLabel, hsp, h1]
  · intro hsp h1 hc
    simp only [mfqSituationLabel, hsp, h1]
    simp [hc, Nat.pos_iff_ne_zero]
  · intro hsp h1 hc
    simp [mfqSituationLabel, hsp, h1, hc]

/-- Witness for C4: the concrete retired couple gets the retired-couple
label and not the plain couple label. -/
theorem claim_C4_witness :
    mfqSituationLabel householdRetiredCouple = "Couple de retraités"
    ∧ mfqSituationLabel householdRetiredCouple ≠ "Couple" :=
  (claim_C4 householdRetiredCouple).1 ⟨68, 5000, 20000, true⟩ rfl rfl rfl

/-- C6: table selection is a pure function of `taxYear`: for 2024 both
extractors use the table whose identifiers are the shared stems with the
`_old` suffix, for 2025 the same stems with the `_new` suffix, and the two
calculator tables request exactly the same keys. -/
theorem claim_C6 :
    selectorsFor 2024 = selectorStems.map (fun kv => (kv.1, kv.2 ++ "_old"))
    ∧ selectorsFor 2025 = selectorStems.map (fun kv => (kv.1, kv.2 ++ "_new"))
    ∧ (selectorsFor 2024).map Prod.fst = (selectorsFor 2025).map Prod.fst
    ∧ mfqResultIds 2024 = mfqResultStems.map (fun kv => (kv.1, kv.2 ++ "_old"))
    ∧ mfqResultIds 2025 = mfqResultStems.map (fun kv => (kv.1, kv.2 ++ "_new")) := by
  refine ⟨by decide, by decide, by decide, by decide, by decide⟩

/-- C9: `_extract_numeric_value` is total — for every page state (hence
every control state and raw text, malformed or not) it returns normally
with a float or `None`, never propagating an exception to the extraction
loop. -/
theorem claim_C9 (page : Page) (selector : String) :
    ∃ v : Option ℚ, extract_numeric_value page selector = .ok v :=
  extract_numeric_value_isOk page selector

/-- C10: any household-type string outside the five known values falls
through `dict.get`'s default and maps to the single-person label, with no
error path. -/
theorem claim_C10 (t : String)
    (hnot : t ∉ ["single", "couple", "single_parent", "retired_single",
                 "retired_couple"]) :
    map_household_type t = "Personne vivant seule" := by
  simp only [List.mem_cons, List.not_mem_nil, or_false, not_or] at hnot
  obtain ⟨h1, h2, h3, h4, h5⟩ := hnot
  unfold map_household_type
  rw [if_neg h1, if_neg h3, if_neg h2, if_neg h4, if_neg h5]

/-- Witness for C10 at the unknown type `"colocation"`. -/
theorem claim_C10_witness :
    map_household_type "colocation" = "Personne vivant seule" :=
  claim_C10 "colocation" (by decide)

end Revdisp
namespace Revdisp

/-- Inversion for `seqE`: if the sequenced computation succeeded, its
second stage did. -/
theorem seqE_ok {α : Type} (e : Except String Unit) (k : Except String α)
    (a : α) (h : seqE e k = .ok a) : k = .ok a := by
  cases e with
  | ok u => exact h
  | error msg => simp [seqE] at h

/-- The action list of a successful calculator `_fill_form` run. -/
theorem fill_form_ok_eq (page : Page) (h : Household) (acts : List Action)
    (hok : fill_form page h = .ok acts) :
    ∃ childActs, calcChildrenSection page h = .ok childActs
      ∧ acts = [Action.selectOption "Situation" (map_household_type h.householdType)]
          ++ fill_field page "#Revenu1" (toString (incomeToUse h.primaryPerson))
          ++ fill_field page "#AgeAdulte1" (toString h.primaryPerson.age)
          ++ (match h.spouse with
              | some sp =>
                  fill_field page "#Revenu2" (toString (incomeToUse sp))
                    ++ fill_field page "#AgeAdulte2" (toString sp.age)
              | none => [])
          ++ childActs := by
  unfold fill_form at hok
  have hok2 := seqE_ok _ _ _ hok
  cases hc : calcChildrenSection page h with
  | error e => rw [hc] at hok2; cases hok2
  | ok childActs =>
    rw [hc] at hok2
    injection hok2 with h'
    exact ⟨childActs, rfl, h'.symm⟩

/-- The action list of a successful mfq `fill_form` run. -/
theorem mfq_fill_form_ok_eq (page : Page) (h : Household) (acts : List Action)
    (hok : mfq_fill_form page h = .ok acts) :
    acts = [Action.selectOption "Situation" (mfqSituationLabel h),
            Action.fillField "Revenu1" (toString (incomeToUse h.primaryPerson)),
            Action.fillField "AgeAdulte1" (toString h.primaryPerson.age)]
      ++ (match h.spouse with
          | some sp =>
              [Action.fillField "Revenu2" (toString (incomeToUse sp)),
               Action.fillField "AgeAdulte2" (toString sp.age)]
          | none => [])
      ++ [Action.selectOption "NbEnfants"
            (if h.numChildren.getD 0 = 0 then "Aucun enfant"
             else toString (h.numChildren.getD 0))]
      ++ (List.range (min (h.numChildren.getD 0) 5)).foldr
          (fun i acc => mfqChildSlot page h.children i ++ acc) [] := by
  unfold mfq_fill_form at hok
  have h2 := seqE_ok _ _ _ (seqE_ok _ _ _ (seqE_ok _ _ _ (seqE_ok _ _ _
    (seqE_ok _ _ _ hok))))
  injection h2 with h'
  exact h'.symm

/-- A member of a `fill_field` result is the recorded write. -/
theorem mem_fill_field (page : Page) (sel v : String) (a : Action)
    (ha : a ∈ fill_field page sel v) : a = .fillField sel v := by
  unfold fill_field at ha
  revert ha
  cases page.find sel <;> intro ha <;> simp at ha
  exact ha

/-- C5: for every person whose controls the filler reaches, the written
income figure is `grossRetirementIncome` when `isRetired` and
`grossWorkIncome` otherwise — in both fillers, for both the primary
person and the spouse, ignoring the other figure entirely. -/
theorem claim_C5 (page : Page) (h : Household) :
    (∀ acts, fill_form page h = .ok acts → (page.find "#Revenu1").isSome = true →
      ((h.primaryPerson.isRetired = true →
          Action.fillField "#Revenu1"
            (toString h.primaryPerson.grossRetirementIncome) ∈ acts)
       ∧ (h.primaryPerson.isRetired = false →
          Action.fillField "#Revenu1"
            (toString h.primaryPerson.grossWorkIncome) ∈ acts)))
    ∧ (∀ acts sp, fill_form page h = .ok acts → h.spouse = some sp →
        (page.find "#Revenu2").isSome = true →
        ((sp.isRetired = true →
            Action.fillField "#Revenu2" (toString sp.grossRetirementIncome) ∈ acts)
         ∧ (sp.isRetired = false →
            Action.fillField "#Revenu2" (toString sp.grossWorkIncome) ∈ acts)))
    ∧ (∀ acts, mfq_fill_form page h = .ok acts →
        ((h.primaryPerson.isRetired = true →
            Action.fillField "Revenu1"
              (toString h.primaryPerson.grossRetirementIncome) ∈ acts)
         ∧ (h.primaryPerson.isRetired = false →
            Action.fillField "Revenu1"
              (toString h.primaryPerson.grossWorkIncome) ∈ acts)))
    ∧ (∀ acts sp, mfq_fill_form page h = .ok acts → h.spouse = some sp →
        ((sp.isRetired = true →
            Action.fillField "Revenu2" (toString sp.grossRetirementIncome) ∈ acts)
         ∧ (sp.isRetired = false →
            Action.fillField "Revenu2" (toString sp.grossWorkIncome) ∈ acts))) := by
  refine ⟨?_, ?_, ?_, ?_⟩
  · intro acts hok hp
    obtain ⟨childActs, _, hacts⟩ := fill_form_ok_eq page h acts hok
    subst hacts
    have hfield : fill_field page "#Revenu1" (toString (incomeToUse h.primaryPerson))
        = [Action.fillField "#Revenu1" (toString (incomeToUse h.primaryPerson))] := by
      unfold fill_field
      cases hf : page.find "#Revenu1" with
      | some c => rfl
      | none => rw [hf] at hp; cases hp
    rw [hfield]
    constructor
    · intro hret
      simp [incomeToUse, hret, List.mem_append]
    · intro hret
      simp [incomeToUse, hret, List.mem_append]
  · intro acts sp hok hsp hp
    obtain ⟨childActs, _, hacts⟩ := fill_form_ok_eq page h acts hok
    subst hacts
    have hfield : fill_field page "#Revenu2" (toString (incomeToUse sp))
        = [Action.fillField "#Revenu2" (toString (incomeToUse sp))] := by
      unfold fill_field
      cases hf : page.find "#Revenu2" with
      | some c => rfl
      | none => rw [hf] at hp; cases hp
    rw [hsp]
    dsimp only
    rw [hfield]
    constructor
    · intro hret
      simp [incomeToUse, hret, List.mem_append]
    · intro hret
      simp [incomeToUse, hret, List.mem_append]
  · intro acts hok
    rw [mfq_fill_form_ok_eq page h acts hok]
    constructor
    · intro hret
      simp [incomeToUse, hret, List.mem_append]
    · intro hret
      simp [incomeToUse, hret, List.mem_append]
  · intro acts sp hok hsp
    rw [mfq_fill_form_ok_eq page h acts hok]
    constructor
    · intro hret
      simp [hsp, incomeToUse, hret, List.mem_append]
    · intro hret
      simp [hsp, incomeToUse, hret, List.mem_append]

/-- Witness for C5: the retired single's retirement income `22000` (not
the nonzero work income `12000`) is what the calculator filler writes
into `#Revenu1` on the concrete form page. -/
theorem claim_C5_witness :
    Action.fillField "#Revenu1" "22000" ∈
      [Action.selectOption "Situation" "Retraité vivant seul",
       Action.fillField "#Revenu1" "22000",
       Action.fillField "#AgeAdulte1" "70"] :=
  ((claim_C5 pageForm householdRetiredSingle).1
      [Action.selectOption "Situation" "Retraité vivant seul",
       Action.fillField "#Revenu1" "22000",
       Action.fillField "#AgeAdulte1" "70"]
      (by decide) (by decide)).1 (by decide)

end Revdisp
namespace Revdisp

/-- Cleaning a whitespace-only character list leaves nothing: a space is
kept by the character class but deleted by the space removal, and every
other whitespace character is outside the kept class. -/
theorem all_space_filter_nil (l : List Char) (h : l.all pyIsSpace = true) :
    (l.filter (fun c => pyIsDigit c || c = '.' || c = ',' || c = '-' || c = ' ')).filter
      (fun c => c ≠ ' ') = [] := by
  induction l with
  | nil => rfl
  | cons c rest ih =>
    rw [List.all_cons, Bool.and_eq_true] at h
    obtain ⟨hc, hrest⟩ := h
    simp only [pyIsSpace, Bool.or_eq_true, decide_eq_true_eq] at hc
    rcases hc with ((((((rfl | rfl) | rfl) | rfl) | rfl) | rfl) | rfl) | rfl
    · rw [List.filter_cons_of_pos (by decide),
        List.filter_cons_of_neg (by decide)]
      exact ih hrest
    all_goals
      rw [List.filter_cons_of_neg (by decide)]
      exact ih hrest

/-- C7: the numeric text parser returns absent for the empty string, for
every whitespace-only input, and for every input that is a single
dash-family glyph (horizontal-bar marker, em dash, hyphen — matched by
the explicit dash list — and en dash, left with no digits by the
cleaning); it parses space-grouped `"1 234"` to `1234` and both the
plain-hyphen `"-318"` and the Unicode-minus `"−318"` to `-318`. -/
theorem claim_C7 :
    (∀ s : String, s.data.all pyIsSpace = true → extract_numeric_text s = .ok none)
    ∧ (∀ g, g ∈ ['―', '—', '-', '–'] →
        extract_numeric_text (String.mk [g]) = .ok none)
    ∧ extract_numeric_text "1 234" = .ok (some 1234)
    ∧ extract_numeric_text "-318" = .ok (some (-318))
    ∧ extract_numeric_text "−318" = .ok (some (-318)) := by
  refine ⟨?_, ?_, by decide, by decide, by decide⟩
  · intro s hs
    unfold extract_numeric_text
    split
    · rfl
    · have h0 := all_space_filter_nil s.data hs
      simp only [numericClean]
      simp only [h0]
      simp
  · intro g hg
    fin_cases hg <;> decide

/-- Witness for C7: a whitespace-only input and the em dash glyph both
parse to absent. -/
theorem claim_C7_witness :
    extract_numeric_text " " = .ok none
    ∧ extract_numeric_text (String.mk ['—']) = .ok none :=
  ⟨claim_C7.1 " " (by decide), claim_C7.2.1 '—' (by decide)⟩

end Revdisp
namespace Revdisp

/-- Every per-child age write of the calculator loop targets a slot
between the starting index and 5 (the `break` past slot 5). -/
theorem calcChildAgeActs_slot (page : Page) (cs : List Child) (i : Nat)
    (hi : 1 ≤ i) (a : Action) (ha : a ∈ calcChildAgeActs page cs i)
    (j : Nat) (hj : a.childSlot = some j) : 1 ≤ j ∧ j ≤ 5 := by
  induction cs generalizing i with
  | nil => cases ha
  | cons c rest ih =>
    unfold calcChildAgeActs at ha
    split at ha
    · cases ha
    · next hle =>
      rw [List.mem_append] at ha
      rcases ha with hhead | htail
      · revert hhead
        cases page.find ("#AgeEnfant" ++ toString i) <;> intro hhead <;>
          simp at hhead
        subst hhead
        simp only [Action.childSlot, Option.some.injEq] at hj
        omega
      · exact ih (i + 1) (by omega) htail

/-- Every per-child action of a successful calculator children section
targets a slot in 1..5. -/
theorem calcChildrenSection_slots (page : Page) (h : Household)
    (childActs : List Action)
    (hc : calcChildrenSection page h = .ok childActs)
    (a : Action) (ha : a ∈ childActs) (j : Nat)
    (hj : a.childSlot = some j) : 1 ≤ j ∧ j ≤ 5 := by
  unfold calcChildrenSection at hc
  by_cases hn : calcNumChildren h > 0
  · rw [if_pos hn] at hc
    cases hfs : page.findSelect "NbEnfants" with
    | none => rw [hfs] at hc; simp at hc
    | some opts =>
      rw [hfs] at hc
      simp only [] at hc
      cases hlabel : childrenOptionLabel (calcNumChildren h) with
      | some label =>
        rw [hlabel] at hc
        simp only [] at hc
        split at hc
        · injection hc with hc'
          subst hc'
          rcases List.mem_append.mp ha with hsel | hage
          · simp at hsel
            subst hsel
            simp [Action.childSlot] at hj
          · exact calcChildAgeActs_slot page h.children 1 (by omega) a hage j hj
        · cases hc
      | none =>
        rw [hlabel] at hc
        simp only [] at hc
        injection hc with hc'
        subst hc'
        exact calcChildAgeActs_slot page h.children 1 (by omega) a ha j hj
  · rw [if_neg hn] at hc
    injection hc with hc'
    subst hc'
    cases ha

/-- Membership in the folded mfq child loop comes from one loop index. -/
theorem mfq_foldr_mem (page : Page) (cs : List Child) (l : List Nat)
    (a : Action)
    (ha : a ∈ l.foldr (fun i acc => mfqChildSlot page cs i ++ acc) []) :
    ∃ i ∈ l, a ∈ mfqChildSlot page cs i := by
  induction l with
  | nil => cases ha
  | cons x rest ih =>
    rcases List.mem_append.mp ha with h1 | h2
    · exact ⟨x, List.mem_cons_self x rest, h1⟩
    · obtain ⟨i, hi, hmem⟩ := ih h2
      exact ⟨i, List.mem_cons_of_mem x hi, hmem⟩

/-- Every action emitted for the mfq child slot with loop index `i`
addresses slot `i + 1`. -/
theorem mfqChildSlot_slot (page : Page) (cs : List Child) (i : Nat)
    (a : Action) (ha : a ∈ mfqChildSlot page cs i) (j : Nat)
    (hj : a.childSlot = some j) : j = i + 1 := by
  unfold mfqChildSlot at ha
  dsimp only at ha
  rcases List.mem_append.mp ha with h12 | h
  case inl =>
    rcases List.mem_append.mp h12 with h | h
    · revert h
      cases page.find ("AgeEnfant" ++ toString (i + 1)) <;> intro h <;> simp at h
      subst h
      simp only [Action.childSlot, Option.some.injEq] at hj
      omega
    · revert h
      cases page.find ("Frais" ++ toString (i + 1)) <;> intro h <;> simp at h
      subst h
      simp only [Action.childSlot, Option.some.injEq] at hj
      omega
  case inr =>
    cases hts : page.findSelect ("type_garde" ++ toString (i + 1)) with
    | none =>
      rw [hts] at h
      simp at h
    | some opts =>
      rw [hts] at h
      cases hty : (cs.get? i).bind Child.childcare_type with
      | none =>
        rw [hty] at h
        simp at h
      | some ty =>
        rw [hty] at h
        simp only [] at h
        split at h
        · simp at h
          subst h
          simp only [Action.childSlot, Option.some.injEq] at hj
          omega
        · cases h

/-- C8 (amended): both fillers address only child slots 1..5, whatever
number of children the household declares; in the calculator filler an
unsupported count (> 5) merely skips the count selection and the fill
still succeeds; but in the mfq filler a count above the form's limit
makes `select_by_visible_text` raise (no matching option exists), which
aborts that household's fill instead of being swallowed. -/
theorem claim_C8 (page : Page) (h : Household) :
    (∀ acts, fill_form page h = .ok acts →
        ∀ a ∈ acts, ∀ j, a.childSlot = some j → 1 ≤ j ∧ j ≤ 5)
    ∧ (∀ acts, mfq_fill_form page h = .ok acts →
        ∀ a ∈ acts, ∀ j, a.childSlot = some j → 1 ≤ j ∧ j ≤ 5)
    ∧ (calcNumChildren h > 5 →
        selectVisible page "Situation" (map_household_type h.householdType) = .ok () →
        (page.findSelect "NbEnfants").isSome = true →
        ∃ acts, fill_form page h = .ok acts) := by
  refine ⟨?_, ?_, ?_⟩
  · intro acts hok a ha j hj
    obtain ⟨childActs, hc, hacts⟩ := fill_form_ok_eq page h acts hok
    subst hacts
    simp only [List.mem_append] at ha
    rcases ha with (((hsel | hf1) | hf2) | hsp) | hchild
    · simp at hsel; subst hsel; simp [Action.childSlot] at hj
    · rw [mem_fill_field page _ _ a hf1] at hj
      simp [Action.childSlot] at hj
    · rw [mem_fill_field page _ _ a hf2] at hj
      simp [Action.childSlot] at hj
    · revert hsp
      cases h.spouse with
      | none => intro hsp; cases hsp
      | some sp =>
        intro hsp
        rcases List.mem_append.mp hsp with hr | hr <;>
          rw [mem_fill_field page _ _ a hr] at hj <;>
          simp [Action.childSlot] at hj
    · exact calcChildrenSection_slots page h childActs hc a hchild j hj
  · intro acts hok a ha j hj
    rw [mfq_fill_form_ok_eq page h acts hok] at ha
    simp only [List.mem_append] at ha
    rcases ha with ((hmain | hsp) | hnb) | hchild
    · simp at hmain
      rcases hmain with rfl | rfl | rfl <;> simp [Action.childSlot] at hj
    · revert hsp
      cases h.spouse with
      | none => intro hsp; cases hsp
      | some sp =>
        intro hsp
        simp at hsp
        rcases hsp with rfl | rfl <;> simp [Action.childSlot] at hj
    · simp at hnb; subst hnb; simp [Action.childSlot] at hj
    · obtain ⟨i, hi, hmem⟩ := mfq_foldr_mem page h.children _ a hchild
      have hj' := mfqChildSlot_slot page h.children i a hmem j hj
      rw [List.mem_range] at hi
      have : i < 5 := lt_of_lt_of_le hi (min_le_right _ _)
      omega
  · intro hgt hsel hnb
    have hnone : childrenOptionLabel (calcNumChildren h) = none := by
      unfold childrenOptionLabel
      rw [if_neg (by omega), if_neg (by omega), if_neg (by omega),
        if_neg (by omega), if_neg (by omega)]
    have hcs : calcChildrenSection page h = .ok (calcChildAgeActs page h.children 1) := by
      unfold calcChildrenSection
      rw [if_pos (by omega : calcNumChildren h > 0)]
      cases hfs : page.findSelect "NbEnfants" with
      | none => rw [hfs] at hnb; cases hnb
      | some opts =>
        rw [hnone]
    unfold fill_form
    simp only [seqE, hsel, hcs]
    exact ⟨_, rfl⟩

/-- Witness for C8: on the concrete form page, the calculator filler
succeeds for the six-children household (the unsupported count is
skipped), and the mfq filler succeeds for a childless retired single,
every emitted child-slot index (vacuously) within 1..5. -/
theorem claim_C8_witness :
    (∃ acts, fill_form pageForm householdSixChildren = .ok acts)
    ∧ (∀ j, (Action.fillField "#Revenu1" "22000").childSlot = some j →
        1 ≤ j ∧ j ≤ 5) :=
  ⟨(claim_C8 pageForm householdSixChildren).2.2 (by decide) (by decide) (by decide),
   (claim_C8 pageForm householdRetiredSingle).1
      [Action.selectOption "Situation" "Retraité vivant seul",
       Action.fillField "#Revenu1" "22000",
       Action.fillField "#AgeAdulte1" "70"]
      (by decide) (Action.fillField "#Revenu1" "22000") (by decide)⟩

/-- C8 counterexample: the mfq filler, asked for six children on a page
whose children-count select offers only "no children" through five,
raises instead of dropping the excess: the fill aborts with
`NoSuchElementException`. -/
theorem claim_C8_counterexample :
    mfq_fill_form pageForm householdSixChildren =
      .error "NoSuchElementException" := by decide

end Revdisp
